import Mathlib

/-!
Shallow embedding of the IGDB MCP server (the `IGDBClient` class of
`src/igdb-client.ts` and the stdio tool-call handler of the server entry
point).  The two external network endpoints are modelled by oracle values
(`IdpResponse` for the Twitch token endpoint, `ApiResponse` for the IGDB
data endpoint) describing the response the network would deliver; every
operation returns its result together with the updated client state and
the trace of outbound network calls it performed, so that "issues zero /
exactly one identity-provider request" is a statement about that trace.
Times are milliseconds since epoch, as delivered by `Date.now()`, modelled
as integers; a single `now` stands for the clock during one call.
-/

namespace IGDB

/-- The `TokenData` record cached by the client: `{ token, expiresAt }`. -/
structure TokenData where
  token : String
  expiresAt : Int
deriving DecidableEq, Repr

/-- The JSON shape of a successful Twitch token-endpoint response
(`OAuthToken` in the source): `{ access_token, expires_in, token_type }`. -/
structure OAuthToken where
  access_token : String
  expires_in : Int
  token_type : String
deriving DecidableEq, Repr

/-- An `{ id, name }` reference as returned by IGDB for genres, platforms,
themes, game modes and similar games. -/
structure NameId where
  id : Int
  name : String
deriving DecidableEq, Repr

/-- The `{ company: { id, name } }` wrapper used for involved companies. -/
structure CompanyRef where
  company : NameId
deriving DecidableEq, Repr

/-- The `{ url }` cover-image reference. -/
structure CoverRef where
  url : String
deriving DecidableEq, Repr

/-- The `Game` record of `igdb-client.ts`.  All fields except `id` and
`name` are optional; the two floating-point rating fields are modelled as
rationals (no claim computes with them). -/
structure Game where
  id : Int
  name : String
  summary : Option String := none
  storyline : Option String := none
  rating : Option Rat := none
  aggregated_rating : Option Rat := none
  first_release_date : Option Int := none
  genres : Option (List NameId) := none
  platforms : Option (List NameId) := none
  themes : Option (List NameId) := none
  game_modes : Option (List NameId) := none
  involved_companies : Option (List CompanyRef) := none
  similar_games : Option (List NameId) := none
  cover : Option CoverRef := none
deriving DecidableEq, Repr

/-- The mutable state of an `IGDBClient` instance: the two configured
credentials and the cached token (`tokenData`, initially `null`). -/
structure ClientState where
  clientId : String
  clientSecret : String
  tokenData : Option TokenData
deriving DecidableEq, Repr

/-- Oracle for the identity provider's response to the client-credentials
grant request: either the parsed JSON of a success response, or a
non-success HTTP status together with the response body text. -/
inductive IdpResponse where
  | success (data : OAuthToken)
  | failure (status : Nat) (body : String)
deriving DecidableEq, Repr

/-- Oracle for the IGDB data endpoint's response to a query: either the
parsed JSON array of game records, or a non-success HTTP status together
with the response body text. -/
inductive ApiResponse where
  | success (games : List Game)
  | failure (status : Nat) (body : String)
deriving DecidableEq, Repr

/-- One outbound network call: a POST to the identity provider's token
endpoint, or a POST of `body` to the data service's `endpoint` (the
`Client-ID` / `Authorization` headers carry no information beyond the
token's presence and are elided). -/
inductive NetCall where
  | idp
  | api (endpoint : String) (body : String)
deriving DecidableEq, Repr

/-- The outcome of running one client operation: the returned value or the
thrown error's message, the client state afterwards, and the ordered trace
of outbound network calls made. -/
structure CallOutcome (α : Type) where
  result : Except String α
  state : ClientState
  calls : List NetCall

/-- The fall-through part of `getToken` (lines 61-86 of the source): issue
the client-credentials grant request; on a non-success status throw
`Failed to authenticate with Twitch: <status> <body>` leaving the cache
untouched; on success replace the cached credential with the new token and
`expiresAt = now + expires_in * 1000` and return the new token. -/
def fetchNewToken (st : ClientState) (now : Int) (idp : IdpResponse) :
    CallOutcome String :=
  match idp with
  | IdpResponse.failure status errorText =>
    ⟨Except.error
        ("Failed to authenticate with Twitch: " ++ toString status ++ " " ++ errorText),
      st, [NetCall.idp]⟩
  | IdpResponse.success data =>
    ⟨Except.ok data.access_token,
      { st with
        tokenData := some ⟨data.access_token, now + data.expires_in * 1000⟩ },
      [NetCall.idp]⟩

/-- `IGDBClient.getToken`: if a token is cached and
`now < expiresAt - 300000` (the 5-minute buffer), return it with no
network call; otherwise fetch a new token from the identity provider. -/
def getToken (st : ClientState) (now : Int) (idp : IdpResponse) :
    CallOutcome String :=
  match st.tokenData with
  | some td =>
    if now < td.expiresAt - 300000 then ⟨Except.ok td.token, st, []⟩
    else fetchNewToken st now idp
  | none => fetchNewToken st now idp

/-- `IGDBClient.request`: obtain a token via `getToken` (errors propagate),
then POST `body` to the data endpoint; on a non-success status throw
`IGDB API error: <status> <body>`, on success return the parsed array.
The network trace is the token call's trace followed by the data call. -/
def request (st : ClientState) (now : Int) (idp : IdpResponse)
    (endpoint : String) (body : String) (api : ApiResponse) :
    CallOutcome (List Game) :=
  match getToken st now idp with
  | ⟨Except.error e, st2, calls⟩ => ⟨Except.error e, st2, calls⟩
  | ⟨Except.ok _, st2, calls⟩ =>
    match api with
    | ApiResponse.failure status errorText =>
      ⟨Except.error ("IGDB API error: " ++ toString status ++ " " ++ errorText),
        st2, calls ++ [NetCall.api endpoint body]⟩
    | ApiResponse.success games =>
      ⟨Except.ok games, st2, calls ++ [NetCall.api endpoint body]⟩

/-- Character-level model of `query.replace(/"/g, '\\"')`: every `"` is
replaced by the two-character sequence backslash-quote, all other
characters pass through unchanged. -/
def escapeChars : List Char → List Char
  | [] => []
  | c :: rest =>
    if c = '"' then '\\' :: '"' :: escapeChars rest
    else c :: escapeChars rest

/-- `query.replace(/"/g, '\\"')` as a function on strings. -/
def escapeQuery (q : String) : String :=
  String.mk (escapeChars q.data)

/-- The fixed field projection of `searchGames`' request body. -/
def searchFieldsClause : String :=
  "fields name, summary, rating, aggregated_rating,\n             genres.name, platforms.name,\n             first_release_date, cover.url,\n             involved_companies.company.name;"

/-- The template-literal request body built by `searchGames` (source lines
116-123), with the embedded expressions spliced in. -/
def searchGamesBody (query : String) (limit : Int) : String :=
  "\n      search \"" ++ escapeQuery query ++ "\";\n      " ++
    searchFieldsClause ++ "\n      " ++ "limit " ++ toString limit ++ ";" ++ "\n    "

/-- `IGDBClient.searchGames`: build the search body and issue one request
to the `games` endpoint; the response array is returned as-is. -/
def searchGames (st : ClientState) (now : Int) (idp : IdpResponse)
    (query : String) (limit : Int) (api : ApiResponse) :
    CallOutcome (List Game) :=
  request st now idp "games" (searchGamesBody query limit) api

/-- The fixed field projection of `getGameDetails`' request body. -/
def detailsFieldsClause : String :=
  "fields name, summary, storyline, rating, aggregated_rating,\n             genres.name, themes.name, platforms.name,\n             first_release_date, cover.url,\n             involved_companies.company.name,\n             similar_games.name, similar_games.id,\n             game_modes.name;"

/-- The template-literal request body built by `getGameDetails` (source
lines 133-141). -/
def getGameDetailsBody (gameId : Int) : String :=
  "\n      where id = " ++ toString gameId ++ ";\n      " ++
    detailsFieldsClause ++ "\n    "

/-- `IGDBClient.getGameDetails`: issue the `where id = <gameId>` query and
return `gameArray.length > 0 ? gameArray[0] : null`. -/
def getGameDetails (st : ClientState) (now : Int) (idp : IdpResponse)
    (gameId : Int) (api : ApiResponse) : CallOutcome (Option Game) :=
  match request st now idp "games" (getGameDetailsBody gameId) api with
  | ⟨Except.error e, st2, calls⟩ => ⟨Except.error e, st2, calls⟩
  | ⟨Except.ok games, st2, calls⟩ =>
    ⟨Except.ok (if h : 0 < games.length then some (games.get ⟨0, h⟩) else none),
      st2, calls⟩

/-- JavaScript falsiness of an environment / string argument value:
`undefined` and the empty string are falsy. -/
def jsFalsyStr : Option String → Bool
  | none => true
  | some s => s == ""

/-- JavaScript falsiness of a numeric argument value: `undefined` and `0`
are falsy. -/
def jsFalsyNum : Option Int → Bool
  | none => true
  | some n => n == 0

/-- JavaScript `x || d` for a possibly-absent number `x`: yields `d` when
`x` is `undefined` or `0`, and `x` itself otherwise. -/
def jsOrNum : Option Int → Int → Int
  | none, d => d
  | some n, d => if n == 0 then d else n

/-- The `IGDBClient` constructor as a function of the two environment
values `IGDB_CLIENT_ID` and `IGDB_CLIENT_SECRET` (`undefined` when unset):
throws when either is falsy, otherwise stores both with an empty cache. -/
def mkIGDBClient (envClientId envClientSecret : Option String) :
    Except String ClientState :=
  if jsFalsyStr envClientId || jsFalsyStr envClientSecret then
    Except.error
      "Missing IGDB credentials. Please set IGDB_CLIENT_ID and IGDB_CLIENT_SECRET environment variables."
  else
    Except.ok ⟨envClientId.getD "", envClientSecret.getD "", none⟩

/-- The outcome of one underlying client operation as observed by the tool
handler: the returned value, or the message of the error it threw. -/
inductive OpOutcome (α : Type) where
  | ok (val : α)
  | err (msg : String)

/-- A tool-call result: the single text content block and the `isError`
marker (absent in the source means `false`). -/
structure ToolResult where
  text : String
  isError : Bool
deriving DecidableEq, Repr

/-- The arguments object of a tool-call request; each field models one
`args?.<field>` access (absent field = `undefined`). -/
structure ToolArgs where
  query : Option String := none
  limit : Option Int := none
  game_id : Option Int := none
deriving DecidableEq, Repr

/-- One invocation of an `IGDBClient` operation by the tool handler,
recording the arguments passed down. -/
inductive ClientCall where
  | search (query : String) (limit : Int)
  | details (gameId : Int)
deriving DecidableEq, Repr

/-- The `CallToolRequestSchema` handler of the server entry point (source
lines 345-448).  `searchFn` / `detailsFn` are the client operations
(`OpOutcome.err` models a thrown error, caught by the handler's
`try/catch`); `fmt` / `fmtDetails` are `formatGame` / `formatGameDetails`,
whose date/float rendering is kept abstract.  The second component is the
list of client operations invoked, in order. -/
def handleToolCall (name : String) (args : ToolArgs)
    (searchFn : String → Int → OpOutcome (List Game))
    (detailsFn : Int → OpOutcome (Option Game))
    (fmt : Game → String) (fmtDetails : Game → String) :
    ToolResult × List ClientCall :=
  if name = "search_games" then
    let limit := min (jsOrNum args.limit 10) 50
    if jsFalsyStr args.query then
      (⟨"Error: query parameter is required", true⟩, [])
    else
      let query := args.query.getD ""
      match searchFn query limit with
      | OpOutcome.err m => (⟨"Error: " ++ m, true⟩, [ClientCall.search query limit])
      | OpOutcome.ok games =>
        if games.length = 0 then
          (⟨"No games found matching \"" ++ query ++ "\"", false⟩,
            [ClientCall.search query limit])
        else
          (⟨"Found " ++ toString games.length ++ " game(s) matching \"" ++ query ++
              "\":\n\n" ++ String.intercalate "\n\n---\n\n" (games.map fmt), false⟩,
            [ClientCall.search query limit])
  else if name = "get_game_details" then
    if jsFalsyNum args.game_id then
      (⟨"Error: game_id parameter is required", true⟩, [])
    else
      let gameId := args.game_id.getD 0
      match detailsFn gameId with
      | OpOutcome.err m => (⟨"Error: " ++ m, true⟩, [ClientCall.details gameId])
      | OpOutcome.ok none =>
        (⟨"No game found with ID " ++ toString gameId, false⟩,
          [ClientCall.details gameId])
      | OpOutcome.ok (some game) =>
        (⟨fmtDetails game, false⟩, [ClientCall.details gameId])
  else
    (⟨"Unknown tool: " ++ name, true⟩, [])

/-- `listStarts pat l` holds when `pat` is an initial segment of `l`. -/
def listStarts : List Char → List Char → Bool
  | [], _ => true
  | _ :: _, [] => false
  | p :: ps, c :: cs => p == c && listStarts ps cs

/-- `listHas needle hay` holds when `needle` occurs contiguously in
`hay`. -/
def listHas (needle : List Char) : List Char → Bool
  | [] => needle.isEmpty
  | c :: rest => listStarts needle (c :: rest) || listHas needle rest

/-- `s` begins with `p`. -/
def strStarts (s p : String) : Bool :=
  listStarts p.data s.data

/-- `s` contains `sub` as a contiguous substring. -/
def strContains (s sub : String) : Bool :=
  listHas sub.data s.data

/-- Helper for `quoteEscaped`: scan a character list remembering the
previous character; a `"` is legal only right after a backslash. -/
def quoteEscapedAux (prev : Char) : List Char → Bool
  | [] => true
  | c :: rest =>
    if c = '"' then
      if prev = '\\' then quoteEscapedAux c rest else false
    else quoteEscapedAux c rest

/-- Every `"` in the list is immediately preceded by a `\` (a leading `"`
counts as unescaped). -/
def quoteEscaped (l : List Char) : Bool :=
  quoteEscapedAux 'x' l

end IGDB

namespace IGDB

/-- `String.append` acts as list append on the underlying character
data. -/
theorem data_append (s t : String) : (s ++ t).data = s.data ++ t.data := by
  cases s
  cases t
  rfl

/-- A list starts with itself, whatever follows. -/
theorem listStarts_self_append (l t : List Char) :
    listStarts l (l ++ t) = true := by
  induction l with
  | nil => rfl
  | cons c cs ih => simp [listStarts, ih]

/-- A concatenation contains its middle part. -/
theorem listHas_append (pre mid suf : List Char) :
    listHas mid (pre ++ mid ++ suf) = true := by
  induction pre with
  | nil =>
    cases mid with
    | nil =>
      cases suf with
      | nil => rfl
      | cons c cs => simp [listHas, listStarts]
    | cons c cs =>
      have h := listStarts_self_append (c :: cs) suf
      simp only [listHas, List.nil_append, Bool.or_eq_true]
      left
      simpa using h
  | cons c cs ih =>
    simp only [listHas, List.cons_append, Bool.or_eq_true]
    right
    simpa [List.append_assoc] using ih

/-- Claim C1: if a credential is cached and the current time is strictly
below `expiresAt - 300000`, `getToken` returns the cached token, issues no
identity-provider request, and leaves the cached credential unmodified. -/
theorem getToken_cache_hit (st : ClientState) (now : Int) (idp : IdpResponse)
    (td : TokenData) (h1 : st.tokenData = some td)
    (h2 : now < td.expiresAt - 300000) :
    getToken st now idp = ⟨Except.ok td.token, st, []⟩ := by
  unfold getToken
  rw [h1]
  simp [h2]

/-- Witness for C1 at a concrete state: cached token `"tok"` expiring at
1000000 ms, current time 0, identity provider poised to fail. -/
theorem getToken_cache_hit_witness :
    (0 : Int) < 1000000 - 300000 ∧
      getToken ⟨"id", "secret", some ⟨"tok", 1000000⟩⟩ 0
          (IdpResponse.failure 500 "boom")
        = ⟨Except.ok "tok", ⟨"id", "secret", some ⟨"tok", 1000000⟩⟩, []⟩ :=
  ⟨by decide,
    getToken_cache_hit ⟨"id", "secret", some ⟨"tok", 1000000⟩⟩ 0
      (IdpResponse.failure 500 "boom") ⟨"tok", 1000000⟩ rfl (by decide)⟩

/-- Claim C2: when no credential is cached, or the cached credential's
`expiresAt` is within 300000 ms of the current time, `getToken` issues
exactly one identity-provider request; on a success response it replaces
the cached credential with the new token and
`expiresAt = now + expires_in * 1000` and returns the new token, and any
data request made through `request` is preceded by exactly that one
identity-provider request. -/
theorem getToken_refresh_success (st : ClientState) (now : Int)
    (data : OAuthToken)
    (h : st.tokenData = none ∨
      ∃ td, st.tokenData = some td ∧ ¬ now < td.expiresAt - 300000) :
    getToken st now (IdpResponse.success data)
      = ⟨Except.ok data.access_token,
          ⟨st.clientId, st.clientSecret,
            some ⟨data.access_token, now + data.expires_in * 1000⟩⟩,
          [NetCall.idp]⟩
    ∧ ∀ endpoint body api,
        (request st now (IdpResponse.success data) endpoint body api).calls
          = [NetCall.idp, NetCall.api endpoint body] := by
  have hget : getToken st now (IdpResponse.success data)
      = ⟨Except.ok data.access_token,
          ⟨st.clientId, st.clientSecret,
            some ⟨data.access_token, now + data.expires_in * 1000⟩⟩,
          [NetCall.idp]⟩ := by
    unfold getToken
    rcases h with h | ⟨td, h1, h2⟩
    · rw [h]
      rfl
    · rw [h1]
      simp [h2, fetchNewToken]
  refine ⟨hget, ?_⟩
  intro endpoint body api
  unfold request
  rw [hget]
  cases api <;> rfl

/-- Witness for C2: empty cache, current time 5 ms, `expires_in` 3600 s;
the refresh stores `expiresAt = 5 + 3600 * 1000` and the composite data
request performs exactly `[idp, api]`. -/
theorem getToken_refresh_success_witness :
    getToken ⟨"id", "secret", none⟩ 5
        (IdpResponse.success ⟨"newtok", 3600, "bearer"⟩)
      = ⟨Except.ok "newtok",
          ⟨"id", "secret", some ⟨"newtok", 5 + 3600 * 1000⟩⟩, [NetCall.idp]⟩
    ∧ (request ⟨"id", "secret", none⟩ 5
          (IdpResponse.success ⟨"newtok", 3600, "bearer"⟩)
          "games" "body" (ApiResponse.success [])).calls
        = [NetCall.idp, NetCall.api "games" "body"] :=
  ⟨(getToken_refresh_success ⟨"id", "secret", none⟩ 5
      ⟨"newtok", 3600, "bearer"⟩ (Or.inl rfl)).1,
    (getToken_refresh_success ⟨"id", "secret", none⟩ 5
      ⟨"newtok", 3600, "bearer"⟩ (Or.inl rfl)).2 "games" "body"
      (ApiResponse.success [])⟩

/-- Claim C3: when the refresh path is taken and the identity provider
responds with a non-success status, `getToken` fails with an error whose
message contains both the HTTP status and the response body text, and the
cached credential state is left exactly as it was (no partial state). -/
theorem getToken_idp_failure (st : ClientState) (now : Int)
    (status : Nat) (body : String)
    (h : st.tokenData = none ∨
      ∃ td, st.tokenData = some td ∧ ¬ now < td.expiresAt - 300000) :
    getToken st now (IdpResponse.failure status body)
      = ⟨Except.error
            ("Failed to authenticate with Twitch: " ++ toString status ++ " " ++ body),
          st, [NetCall.idp]⟩
    ∧ strContains
        ("Failed to authenticate with Twitch: " ++ toString status ++ " " ++ body)
        (toString status) = true
    ∧ strContains
        ("Failed to authenticate with Twitch: " ++ toString status ++ " " ++ body)
        body = true := by
  refine ⟨?_, ?_, ?_⟩
  · unfold getToken
    rcases h with h | ⟨td, h1, h2⟩
    · rw [h]
      rfl
    · rw [h1]
      simp [h2, fetchNewToken]
  · have h2 := listHas_append "Failed to authenticate with Twitch: ".data
      (toString status).data (" " ++ body).data
    unfold strContains
    simpa [data_append, List.append_assoc] using h2
  · have h2 := listHas_append
      ("Failed to authenticate with Twitch: " ++ toString status ++ " ").data
      body.data []
    unfold strContains
    simpa [data_append, List.append_assoc] using h2

/-- Witness for C3: empty cache, identity provider answers HTTP 401 with
body `invalid_client`; the failure message contains both. -/
theorem getToken_idp_failure_witness :
    getToken ⟨"id", "secret", none⟩ 0 (IdpResponse.failure 401 "invalid_client")
      = ⟨Except.error
            ("Failed to authenticate with Twitch: " ++ toString 401 ++ " " ++ "invalid_client"),
          ⟨"id", "secret", none⟩, [NetCall.idp]⟩
    ∧ strContains
        ("Failed to authenticate with Twitch: " ++ toString 401 ++ " " ++ "invalid_client")
        (toString 401) = true
    ∧ strContains
        ("Failed to authenticate with Twitch: " ++ toString 401 ++ " " ++ "invalid_client")
        "invalid_client" = true :=
  getToken_idp_failure ⟨"id", "secret", none⟩ 0 401 "invalid_client" (Or.inl rfl)

/-- The replacement of `"` by `\"` leaves no quote without a backslash
right before it, whatever character precedes the scanned text. -/
theorem quoteEscapedAux_escapeChars (l : List Char) :
    ∀ prev, quoteEscapedAux prev (escapeChars l) = true := by
  induction l with
  | nil =>
    intro prev
    rfl
  | cons c rest ih =>
    intro prev
    by_cases hc : c = '"'
    · subst hc
      simp [escapeChars, quoteEscapedAux, ih]
    · simp [escapeChars, hc, quoteEscapedAux, ih]

/-- Every quote in the escaped query is immediately preceded by a
backslash. -/
theorem quoteEscaped_escapeQuery (q : String) :
    quoteEscaped (escapeQuery q).data = true :=
  quoteEscapedAux_escapeChars q.data 'x'

/-- Escaping preserves the number of double-quote characters: every quote
of the original query is still present in the escaped form. -/
theorem escapeChars_count_quote (l : List Char) :
    (escapeChars l).count '"' = l.count '"' := by
  induction l with
  | nil => rfl
  | cons c rest ih =>
    by_cases hc : c = '"'
    · subst hc
      simp [escapeChars, List.count_cons, ih]
    · simp [escapeChars, hc, List.count_cons, ih]

/-- Claim C4: the request body built by `searchGames` contains the escaped
form of the query — in which every double quote is immediately preceded by
a backslash, and every quote of the original query is still present — the
fixed field projection, and a `limit` clause using the caller's limit
verbatim (no clamping at this layer). -/
theorem searchGames_body_escaping (q : String) (n : Int) :
    quoteEscaped (escapeQuery q).data = true
    ∧ (escapeQuery q).data.count '"' = q.data.count '"'
    ∧ strContains (searchGamesBody q n) (escapeQuery q) = true
    ∧ strContains (searchGamesBody q n) ("limit " ++ toString n ++ ";") = true
    ∧ strContains (searchGamesBody q n) searchFieldsClause = true := by
  refine ⟨quoteEscaped_escapeQuery q, escapeChars_count_quote q.data, ?_, ?_, ?_⟩
  · have h := listHas_append "\n      search \"".data (escapeQuery q).data
      ("\";\n      " ++ searchFieldsClause ++ "\n      " ++ "limit " ++
        toString n ++ ";" ++ "\n    ").data
    unfold strContains searchGamesBody
    simpa [data_append, List.append_assoc] using h
  · have h := listHas_append
      ("\n      search \"" ++ escapeQuery q ++ "\";\n      " ++
        searchFieldsClause ++ "\n      ").data
      ("limit " ++ toString n ++ ";").data
      "\n    ".data
    unfold strContains searchGamesBody
    simpa [data_append, List.append_assoc] using h
  · have h := listHas_append
      ("\n      search \"" ++ escapeQuery q ++ "\";\n      ").data
      searchFieldsClause.data
      ("\n      " ++ "limit " ++ toString n ++ ";" ++ "\n    ").data
    unfold strContains searchGamesBody
    simpa [data_append, List.append_assoc] using h

/-- Claim C5: when the data service responds with a JSON array,
`getGameDetails` returns `none` (absent, not an error) for an empty array
and exactly the first element for a nonempty one, silently discarding any
later elements — provided a token is obtainable so the data request is
reached. -/
theorem getGameDetails_first_or_absent (st : ClientState) (now : Int)
    (idp : IdpResponse) (gameId : Int)
    (h : ∃ tok st2 calls, getToken st now idp = ⟨Except.ok tok, st2, calls⟩) :
    ((getGameDetails st now idp gameId (ApiResponse.success [])).result
        = Except.ok none)
    ∧ ∀ g rest,
        (getGameDetails st now idp gameId
            (ApiResponse.success (g :: rest))).result = Except.ok (some g) := by
  obtain ⟨tok, st2, calls, htok⟩ := h
  constructor
  · unfold getGameDetails request
    rw [htok]
    simp
  · intro g rest
    unfold getGameDetails request
    rw [htok]
    simp

/-- Witness for C5 at a concrete fresh-token state: the empty response
yields absent; a two-element response yields exactly the first record. -/
theorem getGameDetails_first_or_absent_witness :
    ((getGameDetails ⟨"id", "secret", some ⟨"tok", 1000000⟩⟩ 0
          (IdpResponse.failure 500 "boom") 1920 (ApiResponse.success [])).result
        = Except.ok none)
    ∧ (getGameDetails ⟨"id", "secret", some ⟨"tok", 1000000⟩⟩ 0
          (IdpResponse.failure 500 "boom") 1920
          (ApiResponse.success
            [{ id := 1920, name := "Final Fantasy Tactics" },
              { id := 2, name := "Ignored" }])).result
        = Except.ok (some { id := 1920, name := "Final Fantasy Tactics" }) :=
  ⟨(getGameDetails_first_or_absent ⟨"id", "secret", some ⟨"tok", 1000000⟩⟩ 0
      (IdpResponse.failure 500 "boom") 1920
      ⟨"tok", ⟨"id", "secret", some ⟨"tok", 1000000⟩⟩, [], rfl⟩).1,
    (getGameDetails_first_or_absent ⟨"id", "secret", some ⟨"tok", 1000000⟩⟩ 0
      (IdpResponse.failure 500 "boom") 1920
      ⟨"tok", ⟨"id", "secret", some ⟨"tok", 1000000⟩⟩, [], rfl⟩).2
      { id := 1920, name := "Final Fantasy Tactics" }
      [{ id := 2, name := "Ignored" }]⟩

/-- Counterexample to C9 as stated: with both environment variables
present — `IGDB_CLIENT_ID` set to the empty string — construction still
fails, so "when both are present construction succeeds" is false. -/
theorem mkIGDBClient_present_empty_cex :
    mkIGDBClient (some "") (some "secret")
      = Except.error
          "Missing IGDB credentials. Please set IGDB_CLIENT_ID and IGDB_CLIENT_SECRET environment variables." := by
  rfl

/-- Claim C9 (amended): construction fails with the configuration error
when either environment value is missing, or present but empty (the
constructor's falsiness check conflates the two), and succeeds storing
both values when both are present and nonempty. -/
theorem mkIGDBClient_spec (envId envSecret : Option String) :
    ((envId = none ∨ envId = some "" ∨ envSecret = none ∨ envSecret = some "") →
      mkIGDBClient envId envSecret
        = Except.error
            "Missing IGDB credentials. Please set IGDB_CLIENT_ID and IGDB_CLIENT_SECRET environment variables.")
    ∧ ∀ cid cs, envId = some cid → envSecret = some cs → cid ≠ "" → cs ≠ "" →
        mkIGDBClient envId envSecret = Except.ok ⟨cid, cs, none⟩ := by
  constructor
  · rintro (h | h | h | h) <;> subst h <;> simp [mkIGDBClient, jsFalsyStr]
  · intro cid cs h1 h2 hc1 hc2
    subst h1
    subst h2
    simp [mkIGDBClient, jsFalsyStr, hc1, hc2]

/-- Witness for C9 (amended): a missing id fails; a present-but-empty
secret fails; nonempty id and secret construct a client storing both. -/
theorem mkIGDBClient_spec_witness :
    mkIGDBClient none (some "secret")
        = Except.error
            "Missing IGDB credentials. Please set IGDB_CLIENT_ID and IGDB_CLIENT_SECRET environment variables."
    ∧ mkIGDBClient (some "x") (some "")
        = Except.error
            "Missing IGDB credentials. Please set IGDB_CLIENT_ID and IGDB_CLIENT_SECRET environment variables."
    ∧ mkIGDBClient (some "abc") (some "secret")
        = Except.ok ⟨"abc", "secret", none⟩ :=
  ⟨(mkIGDBClient_spec none (some "secret")).1 (Or.inl rfl),
    (mkIGDBClient_spec (some "x") (some "")).1 (Or.inr (Or.inr (Or.inr rfl))),
    (mkIGDBClient_spec (some "abc") (some "secret")).2 "abc" "secret" rfl rfl
      (by decide) (by decide)⟩

/-- A message of the form `Error: <m>` begins with `Error:`. -/
theorem strStarts_error_append (m : String) :
    strStarts ("Error: " ++ m) "Error:" = true := by
  show listStarts "Error:".data ("Error: " ++ m).data = true
  rw [data_append]
  rfl

/-- The `search_games` branch with a falsy `query` argument returns the
validation error without invoking any client operation. -/
theorem handle_search_noquery (args : ToolArgs)
    (searchFn : String → Int → OpOutcome (List Game))
    (detailsFn : Int → OpOutcome (Option Game)) (fmt fmtDetails : Game → String)
    (h : jsFalsyStr args.query = true) :
    handleToolCall "search_games" args searchFn detailsFn fmt fmtDetails
      = (⟨"Error: query parameter is required", true⟩, []) := by
  simp [handleToolCall, h]

/-- The `search_games` branch when `searchGames` throws. -/
theorem handle_search_err (args : ToolArgs) (q m : String)
    (searchFn : String → Int → OpOutcome (List Game))
    (detailsFn : Int → OpOutcome (Option Game)) (fmt fmtDetails : Game → String)
    (hq : args.query = some q) (hne : q ≠ "")
    (hs : searchFn q (min (jsOrNum args.limit 10) 50) = OpOutcome.err m) :
    handleToolCall "search_games" args searchFn detailsFn fmt fmtDetails
      = (⟨"Error: " ++ m, true⟩,
          [ClientCall.search q (min (jsOrNum args.limit 10) 50)]) := by
  simp [handleToolCall, hq, jsFalsyStr, hne, hs]

/-- The `search_games` branch when the search returns no games. -/
theorem handle_search_empty (args : ToolArgs) (q : String)
    (searchFn : String → Int → OpOutcome (List Game))
    (detailsFn : Int → OpOutcome (Option Game)) (fmt fmtDetails : Game → String)
    (hq : args.query = some q) (hne : q ≠ "")
    (hs : searchFn q (min (jsOrNum args.limit 10) 50) = OpOutcome.ok []) :
    handleToolCall "search_games" args searchFn detailsFn fmt fmtDetails
      = (⟨"No games found matching \"" ++ q ++ "\"", false⟩,
          [ClientCall.search q (min (jsOrNum args.limit 10) 50)]) := by
  simp [handleToolCall, hq, jsFalsyStr, hne, hs]

/-- The `search_games` branch when the search returns at least one game. -/
theorem handle_search_found (args : ToolArgs) (q : String) (g : Game)
    (gs : List Game)
    (searchFn : String → Int → OpOutcome (List Game))
    (detailsFn : Int → OpOutcome (Option Game)) (fmt fmtDetails : Game → String)
    (hq : args.query = some q) (hne : q ≠ "")
    (hs : searchFn q (min (jsOrNum args.limit 10) 50) = OpOutcome.ok (g :: gs)) :
    handleToolCall "search_games" args searchFn detailsFn fmt fmtDetails
      = (⟨"Found " ++ toString (g :: gs).length ++ " game(s) matching \"" ++ q ++
            "\":\n\n" ++ String.intercalate "\n\n---\n\n" ((g :: gs).map fmt), false⟩,
          [ClientCall.search q (min (jsOrNum args.limit 10) 50)]) := by
  simp [handleToolCall, hq, jsFalsyStr, hne, hs]

/-- The `get_game_details` branch with a falsy `game_id` argument returns
the validation error without invoking any client operation. -/
theorem handle_details_noid (args : ToolArgs)
    (searchFn : String → Int → OpOutcome (List Game))
    (detailsFn : Int → OpOutcome (Option Game)) (fmt fmtDetails : Game → String)
    (h : jsFalsyNum args.game_id = true) :
    handleToolCall "get_game_details" args searchFn detailsFn fmt fmtDetails
      = (⟨"Error: game_id parameter is required", true⟩, []) := by
  simp [handleToolCall, h]

/-- The `get_game_details` branch when `getGameDetails` throws. -/
theorem handle_details_err (args : ToolArgs) (g : Int) (m : String)
    (searchFn : String → Int → OpOutcome (List Game))
    (detailsFn : Int → OpOutcome (Option Game)) (fmt fmtDetails : Game → String)
    (hg : args.game_id = some g) (hg0 : g ≠ 0)
    (hd : detailsFn g = OpOutcome.err m) :
    handleToolCall "get_game_details" args searchFn detailsFn fmt fmtDetails
      = (⟨"Error: " ++ m, true⟩, [ClientCall.details g]) := by
  simp [handleToolCall, hg, jsFalsyNum, hg0, hd]

/-- The `get_game_details` branch when no game matches. -/
theorem handle_details_none (args : ToolArgs) (g : Int)
    (searchFn : String → Int → OpOutcome (List Game))
    (detailsFn : Int → OpOutcome (Option Game)) (fmt fmtDetails : Game → String)
    (hg : args.game_id = some g) (hg0 : g ≠ 0)
    (hd : detailsFn g = OpOutcome.ok none) :
    handleToolCall "get_game_details" args searchFn detailsFn fmt fmtDetails
      = (⟨"No game found with ID " ++ toString g, false⟩, [ClientCall.details g]) := by
  simp [handleToolCall, hg, jsFalsyNum, hg0, hd]

/-- The `get_game_details` branch when a game is found. -/
theorem handle_details_some (args : ToolArgs) (g : Int) (game : Game)
    (searchFn : String → Int → OpOutcome (List Game))
    (detailsFn : Int → OpOutcome (Option Game)) (fmt fmtDetails : Game → String)
    (hg : args.game_id = some g) (hg0 : g ≠ 0)
    (hd : detailsFn g = OpOutcome.ok (some game)) :
    handleToolCall "get_game_details" args searchFn detailsFn fmt fmtDetails
      = (⟨fmtDetails game, false⟩, [ClientCall.details g]) := by
  simp [handleToolCall, hg, jsFalsyNum, hg0, hd]

/-- The unknown-tool branch. -/
theorem handle_unknown (name : String) (args : ToolArgs)
    (searchFn : String → Int → OpOutcome (List Game))
    (detailsFn : Int → OpOutcome (Option Game)) (fmt fmtDetails : Game → String)
    (h1 : name ≠ "search_games") (h2 : name ≠ "get_game_details") :
    handleToolCall name args searchFn detailsFn fmt fmtDetails
      = (⟨"Unknown tool: " ++ name, true⟩, []) := by
  simp [handleToolCall, h1, h2]

/-- Counterexample to C6 as stated: invoking an unknown tool produces an
error-marked result whose text does not begin with `Error:`. -/
theorem unknown_tool_cex :
    (handleToolCall "list_genres" {} (fun _ _ => OpOutcome.ok [])
        (fun _ => OpOutcome.ok none) (fun _ => "") (fun _ => "")).1
      = ⟨"Unknown tool: list_genres", true⟩
    ∧ strStarts "Unknown tool: list_genres" "Error:" = false := by
  exact ⟨rfl, rfl⟩

/-- Claim C6 (amended): every error-marked result of the tool handler has
text beginning with `Error:` followed by the underlying message, except
the unknown-tool result, whose text is `Unknown tool: <name>`; and a
zero-result outcome is returned as a normal, non-error result. -/
theorem handler_error_text (name : String) (args : ToolArgs)
    (searchFn : String → Int → OpOutcome (List Game))
    (detailsFn : Int → OpOutcome (Option Game)) (fmt fmtDetails : Game → String) :
    ((handleToolCall name args searchFn detailsFn fmt fmtDetails).1.isError = true →
      strStarts (handleToolCall name args searchFn detailsFn fmt fmtDetails).1.text
          "Error:" = true
      ∨ (handleToolCall name args searchFn detailsFn fmt fmtDetails).1.text
          = "Unknown tool: " ++ name)
    ∧ (∀ q, name = "search_games" → args.query = some q → q ≠ "" →
        searchFn q (min (jsOrNum args.limit 10) 50) = OpOutcome.ok [] →
        (handleToolCall name args searchFn detailsFn fmt fmtDetails).1
          = ⟨"No games found matching \"" ++ q ++ "\"", false⟩)
    ∧ (∀ g, name = "get_game_details" → args.game_id = some g → g ≠ 0 →
        detailsFn g = OpOutcome.ok none →
        (handleToolCall name args searchFn detailsFn fmt fmtDetails).1
          = ⟨"No game found with ID " ++ toString g, false⟩) := by
  refine ⟨?_, ?_, ?_⟩
  · intro hE
    by_cases h1 : name = "search_games"
    · subst h1
      cases hq : args.query with
      | none =>
        rw [handle_search_noquery args searchFn detailsFn fmt fmtDetails
          (by simp [jsFalsyStr, hq])]
        left
        decide
      | some q =>
        by_cases hq0 : q = ""
        · rw [handle_search_noquery args searchFn detailsFn fmt fmtDetails
            (by simp [jsFalsyStr, hq, hq0])]
          left
          decide
        · cases hs : searchFn q (min (jsOrNum args.limit 10) 50) with
          | err m =>
            rw [handle_search_err args q m searchFn detailsFn fmt fmtDetails hq hq0 hs]
            left
            exact strStarts_error_append m
          | ok games =>
            cases games with
            | nil =>
              rw [handle_search_empty args q searchFn detailsFn fmt fmtDetails
                hq hq0 hs] at hE
              simp at hE
            | cons g gs =>
              rw [handle_search_found args q g gs searchFn detailsFn fmt fmtDetails
                hq hq0 hs] at hE
              simp at hE
    · by_cases h2 : name = "get_game_details"
      · subst h2
        cases hg : args.game_id with
        | none =>
          rw [handle_details_noid args searchFn detailsFn fmt fmtDetails
            (by simp [jsFalsyNum, hg])]
          left
          decide
        | some g =>
          by_cases hg0 : g = 0
          · rw [handle_details_noid args searchFn detailsFn fmt fmtDetails
              (by simp [jsFalsyNum, hg, hg0])]
            left
            decide
          · cases hd : detailsFn g with
            | err m =>
              rw [handle_details_err args g m searchFn detailsFn fmt fmtDetails hg hg0 hd]
              left
              exact strStarts_error_append m
            | ok og =>
              cases og with
              | none =>
                rw [handle_details_none args g searchFn detailsFn fmt fmtDetails
                  hg hg0 hd] at hE
                simp at hE
              | some game =>
                rw [handle_details_some args g game searchFn detailsFn fmt fmtDetails
                  hg hg0 hd] at hE
                simp at hE
      · rw [handle_unknown name args searchFn detailsFn fmt fmtDetails h1 h2]
        right
        rfl
  · intro q h1 hq hne hs
    subst h1
    rw [handle_search_empty args q searchFn detailsFn fmt fmtDetails hq hne hs]
  · intro g h1 hg hg0 hd
    subst h1
    rw [handle_details_none args g searchFn detailsFn fmt fmtDetails hg hg0 hd]

/-- Witness for C6 (amended): a missing-query error result begins with
`Error:`, and an empty search result is a normal, non-error outcome. -/
theorem handler_error_text_witness :
    (strStarts (handleToolCall "search_games" {} (fun _ _ => OpOutcome.ok [])
          (fun _ => OpOutcome.ok none) (fun _ => "") (fun _ => "")).1.text
        "Error:" = true
      ∨ (handleToolCall "search_games" {} (fun _ _ => OpOutcome.ok [])
          (fun _ => OpOutcome.ok none) (fun _ => "") (fun _ => "")).1.text
        = "Unknown tool: " ++ "search_games")
    ∧ (handleToolCall "search_games" { query := some "zelda" }
          (fun _ _ => OpOutcome.ok []) (fun _ => OpOutcome.ok none)
          (fun _ => "") (fun _ => "")).1
        = ⟨"No games found matching \"" ++ "zelda" ++ "\"", false⟩ :=
  ⟨(handler_error_text "search_games" {} (fun _ _ => OpOutcome.ok [])
      (fun _ => OpOutcome.ok none) (fun _ => "") (fun _ => "")).1 rfl,
    (handler_error_text "search_games" { query := some "zelda" }
      (fun _ _ => OpOutcome.ok []) (fun _ => OpOutcome.ok none)
      (fun _ => "") (fun _ => "")).2.1 "zelda" rfl rfl (by decide) rfl⟩

/-- Counterexample to C7 as stated: a caller-supplied limit of 0 is at
most 50, yet the handler passes 10 (the JavaScript `|| 10` default) down
to `searchGames`, not 0. -/
theorem search_limit_zero_cex :
    (handleToolCall "search_games" { query := some "zelda", limit := some 0 }
        (fun _ _ => OpOutcome.ok []) (fun _ => OpOutcome.ok none)
        (fun _ => "") (fun _ => "")).2
      = [ClientCall.search "zelda" 10]
    ∧ [ClientCall.search "zelda" 10] ≠ [ClientCall.search "zelda" 0] := by
  exact ⟨rfl, by decide⟩

/-- Claim C7 (amended): with a valid query, `search_games` passes
`min((limit || 10), 50)` down to `searchGames`: the caller's limit when it
is nonzero and at most 50, 50 when larger, and the default 10 when the
limit argument is absent or 0 (a falsy value). -/
theorem search_limit_passed (args : ToolArgs) (q : String)
    (searchFn : String → Int → OpOutcome (List Game))
    (detailsFn : Int → OpOutcome (Option Game)) (fmt fmtDetails : Game → String)
    (hq : args.query = some q) (hne : q ≠ "") :
    (handleToolCall "search_games" args searchFn detailsFn fmt fmtDetails).2
        = [ClientCall.search q (min (jsOrNum args.limit 10) 50)]
    ∧ (args.limit = none → min (jsOrNum args.limit 10) 50 = 10)
    ∧ (∀ l, args.limit = some l → l ≠ 0 → l ≤ 50 →
        min (jsOrNum args.limit 10) 50 = l)
    ∧ (∀ l, args.limit = some l → 50 < l → min (jsOrNum args.limit 10) 50 = 50)
    ∧ (args.limit = some 0 → min (jsOrNum args.limit 10) 50 = 10) := by
  refine ⟨?_, ?_, ?_, ?_, ?_⟩
  · cases hs : searchFn q (min (jsOrNum args.limit 10) 50) with
    | err m =>
      rw [handle_search_err args q m searchFn detailsFn fmt fmtDetails hq hne hs]
    | ok games =>
      cases games with
      | nil =>
        rw [handle_search_empty args q searchFn detailsFn fmt fmtDetails hq hne hs]
      | cons g gs =>
        rw [handle_search_found args q g gs searchFn detailsFn fmt fmtDetails hq hne hs]
  · intro h
    simp [h, jsOrNum]
  · intro l h hl0 hl50
    simp only [h, jsOrNum]
    rw [if_neg (by simpa using hl0)]
    omega
  · intro l h hl50
    simp only [h, jsOrNum]
    rw [if_neg (by simp; omega)]
    omega
  · intro h
    simp [h, jsOrNum]

/-- Witness for C7 (amended): query `"zelda"`, limit 70 → 50 is passed. -/
theorem search_limit_passed_witness :
    (handleToolCall "search_games" { query := some "zelda", limit := some 70 }
        (fun _ _ => OpOutcome.ok []) (fun _ => OpOutcome.ok none)
        (fun _ => "") (fun _ => "")).2
      = [ClientCall.search "zelda" (min (jsOrNum (some 70) 10) 50)]
    ∧ min (jsOrNum (some (70 : Int)) 10) 50 = 50 :=
  ⟨(search_limit_passed { query := some "zelda", limit := some 70 } "zelda"
      (fun _ _ => OpOutcome.ok []) (fun _ => OpOutcome.ok none)
      (fun _ => "") (fun _ => "") rfl (by decide)).1,
    (search_limit_passed { query := some "zelda", limit := some 70 } "zelda"
      (fun _ _ => OpOutcome.ok []) (fun _ => OpOutcome.ok none)
      (fun _ => "") (fun _ => "") rfl (by decide)).2.2.2.1 70 rfl (by decide)⟩

/-- Claim C8: a `search_games` invocation with no `query` argument returns
the validation error result (`Error: query parameter is required`, marked
as an error) without invoking `searchGames`, hence without any network
call. -/
theorem search_query_missing (args : ToolArgs)
    (searchFn : String → Int → OpOutcome (List Game))
    (detailsFn : Int → OpOutcome (Option Game)) (fmt fmtDetails : Game → String)
    (h : args.query = none) :
    handleToolCall "search_games" args searchFn detailsFn fmt fmtDetails
      = (⟨"Error: query parameter is required", true⟩, []) :=
  handle_search_noquery args searchFn detailsFn fmt fmtDetails
    (by simp [jsFalsyStr, h])

/-- Witness for C8 at the empty arguments object. -/
theorem search_query_missing_witness :
    handleToolCall "search_games" {} (fun _ _ => OpOutcome.ok [])
        (fun _ => OpOutcome.ok none) (fun _ => "") (fun _ => "")
      = (⟨"Error: query parameter is required", true⟩, []) :=
  search_query_missing {} (fun _ _ => OpOutcome.ok [])
    (fun _ => OpOutcome.ok none) (fun _ => "") (fun _ => "") rfl

/-- Claim C10: a `get_game_details` invocation with `game_id = 0` (a falsy
value) returns the missing-required-argument error result without calling
`getGameDetails`, exactly as if `game_id` were absent. -/
theorem details_id_zero (args : ToolArgs)
    (searchFn : String → Int → OpOutcome (List Game))
    (detailsFn : Int → OpOutcome (Option Game)) (fmt fmtDetails : Game → String)
    (h : args.game_id = some 0) :
    handleToolCall "get_game_details" args searchFn detailsFn fmt fmtDetails
      = (⟨"Error: game_id parameter is required", true⟩, []) :=
  handle_details_noid args searchFn detailsFn fmt fmtDetails
    (by simp [jsFalsyNum, h])

/-- Witness for C10 at `game_id = 0`. -/
theorem details_id_zero_witness :
    handleToolCall "get_game_details" { game_id := some 0 }
        (fun _ _ => OpOutcome.ok []) (fun _ => OpOutcome.ok none)
        (fun _ => "") (fun _ => "")
      = (⟨"Error: game_id parameter is required", true⟩, []) :=
  details_id_zero { game_id := some 0 } (fun _ _ => OpOutcome.ok [])
    (fun _ => OpOutcome.ok none) (fun _ => "") (fun _ => "") rfl

end IGDB
